import Mathlib

/-!
Shallow embedding of the douban-api-rs extraction pipeline (src/api.rs,
src/bookapi.rs) and of its result caches.  Rust panics (`unwrap`, slice
indexing out of bounds) are modelled by `Option`: `none` means the extraction
panicked.  `Result` values are modelled by `Except Unit`.  The concrete
regexes of the source (`Regex::new(...)`) are embedded as executable
matching functions over `List Char` that follow the `regex` crate's
leftmost-first, non-overlapping semantics for those particular patterns.
-/

namespace Douban

/-- Models the `regex` crate's `\w` (Unicode word character) restricted to the
character ranges this program actually meets: ASCII alphanumerics, the
underscore, and CJK unified ideographs U+4E00..U+9FFF (which are
`Alphabetic`, hence matched by the Unicode-aware `\w`).  Full Unicode
property tables are not reproduced. -/
def isWordChar (c : Char) : Bool :=
  c.isAlphanum || c == '_' || (0x4E00 ≤ c.toNat && c.toNat ≤ 0x9FFF)

/-- The character class `[\w：！，·]` of `re_name_math`. -/
def isClassChar (c : Char) : Bool :=
  isWordChar c || c == '：' || c == '！' || c == '，' || c == '·'

/-- Rust's `str::trim`, as a structural function over the character list
(whitespace per `Char.isWhitespace`, which covers the ASCII whitespace these
documents use). -/
def rustTrim (s : String) : String :=
  String.mk (((s.data.dropWhile Char.isWhitespace).reverse.dropWhile
    Char.isWhitespace).reverse)

/-- Rust's `str::split(sep)` over a character list: splitting the empty
string gives one empty piece, separators at the ends give empty pieces. -/
def splitOnChar (sep : Char) : List Char → List (List Char)
  | [] => [[]]
  | c :: rest =>
    let r := splitOnChar sep rest
    if c == sep then [] :: r
    else
      match r with
      | [] => [[c]]
      | h :: t => (c :: h) :: t

/-- Rust's `str::split(sep).collect::<Vec<_>>()` for a character separator. -/
def rustSplit (s : String) (sep : Char) : List String :=
  (splitOnChar sep s.data).map String.mk

/-- Rust's `str::replace(pat, rep)`: replace every non-overlapping occurrence
left to right.  The fuel starts at the text length; every step consumes at
least one character. -/
def replaceAllGo (pat rep : List Char) : Nat → List Char → List Char
  | 0, l => l
  | _ + 1, [] => []
  | fuel + 1, c :: rest =>
    if pat.isPrefixOf (c :: rest) && !pat.isEmpty then
      rep ++ replaceAllGo pat rep fuel ((c :: rest).drop pat.length)
    else c :: replaceAllGo pat rep fuel rest

/-- Rust's `str::replace(pat, rep)`. -/
def rustReplace (s pat rep : String) : String :=
  String.mk (replaceAllGo pat.data rep.data s.data.length s.data)

/-- Rust's `str::starts_with` for a string pattern. -/
def rustStartsWith (s pre : String) : Bool :=
  pre.data.isPrefixOf s.data

/-- Rust's `str::contains` for a character pattern. -/
def rustContainsChar (s : String) (c : Char) : Bool :=
  s.data.contains c

/-- `(.+?)` immediately followed by the literal `stop`: the capture is the
(non-empty) run of non-newline characters before the first `stop`, which must
actually occur.  `.` does not match a newline. -/
def lazyUntil (stop : Char) (l : List Char) : Option (List Char) :=
  let cap := l.takeWhile (fun c => !(c == stop) && !(c == '\n'))
  if cap.isEmpty then none
  else if l.get? cap.length = some stop then some cap else none

/-- `(\d+?)` immediately followed by the literal `stop`. -/
def lazyDigitsUntil (stop : Char) (l : List Char) : Option (List Char) :=
  let cap := l.takeWhile Char.isDigit
  if cap.isEmpty then none
  else if l.get? cap.length = some stop then some cap else none

/-- Try `re_sid = sid: (\d+?),` at the head of `l`; on success return the
capture and the total length of the match. -/
def findSid (l : List Char) : Option (List Char × Nat) :=
  if "sid: ".data.isPrefixOf l then
    (lazyDigitsUntil ',' (l.drop 5)).map (fun cap => (cap, 6 + cap.length))
  else none

/-- Try `re_cat = \[(.+?)\]` at the head of `l`. -/
def findCat (l : List Char) : Option (List Char × Nat) :=
  match l with
  | '[' :: r => (lazyUntil ']' r).map (fun cap => (cap, cap.length + 2))
  | _ => none

/-- Try `re_year = \((\d+?)\)` at the head of `l`. -/
def findYearParen (l : List Char) : Option (List Char × Nat) :=
  match l with
  | '(' :: r => (lazyDigitsUntil ')' r).map (fun cap => (cap, cap.length + 2))
  | _ => none

/-- Try `re_id = /(\d+?)/` at the head of `l`. -/
def findId (l : List Char) : Option (List Char × Nat) :=
  match l with
  | '/' :: r => (lazyDigitsUntil '/' r).map (fun cap => (cap, cap.length + 2))
  | _ => none

/-- Try `re_backgroud_image = url\((.+?)\)` at the head of `l`. -/
def findBg (l : List Char) : Option (List Char × Nat) :=
  if "url(".data.isPrefixOf l then
    (lazyUntil ')' (l.drop 4)).map (fun cap => (cap, 5 + cap.length))
  else none

/-- Try `re_role = \([饰|配] (.+?)\)` at the head of `l` (the bracket is a
character class holding 饰, the bar and 配). -/
def findRole (l : List Char) : Option (List Char × Nat) :=
  match l with
  | '(' :: c :: ' ' :: r =>
    if c == '饰' || c == '|' || c == '配' then
      (lazyUntil ')' r).map (fun cap => (cap, cap.length + 4))
    else none
  | _ => none

/-- Try a label regex of the form `label(.+?)\n` at the head of `l`
(the movie `#info` label regexes, e.g. `导演: (.+?)\n`). -/
def findLabel (label : List Char) (l : List Char) : Option (List Char × Nat) :=
  if label.isPrefixOf l then
    (lazyUntil '\n' (l.drop label.length)).map
      (fun cap => (cap, label.length + cap.length + 1))
  else none

/-- Iterate a regex over the text left to right, non-overlapping, keeping the
last capture (`for cap in re.captures_iter(text) { x = cap[1] }`).  The fuel
argument starts at the text length, which bounds the number of steps since
every step consumes at least one character. -/
def lastCapGo (find : List Char → Option (List Char × Nat)) :
    Nat → List Char → Option (List Char) → Option (List Char)
  | 0, _, acc => acc
  | _ + 1, [], acc => acc
  | fuel + 1, c :: rest, acc =>
    match find (c :: rest) with
    | some (cap, len) => lastCapGo find fuel ((c :: rest).drop (max len 1)) (some cap)
    | none => lastCapGo find fuel rest acc

/-- The `let mut x = String::new(); for cap in re.captures_iter(text) { x = cap[1] }`
idiom shared by `parse_sid`, `parse_cat`, `parse_year_for_detail`, `parse_id`
and `parse_backgroud_image`: last match wins, no match gives the empty string. -/
def regexLast (find : List Char → Option (List Char × Nat)) (s : String) : String :=
  match lastCapGo find s.data.length s.data none with
  | some cap => String.mk cap
  | none => ""

/-- `re.captures(text)` for the patterns above: the capture of the leftmost
match, if any. -/
def firstCapGo (find : List Char → Option (List Char × Nat)) :
    List Char → Option (List Char)
  | [] => none
  | c :: rest =>
    match find (c :: rest) with
    | some (cap, _) => some cap
    | none => firstCapGo find rest

/-- `Douban::parse_sid` (also `DoubanBookApi`'s `re_id` loop, same pattern). -/
def parse_sid (text : String) : String := regexLast findSid text

/-- `Douban::parse_cat`. -/
def parse_cat (text : String) : String := regexLast findCat text

/-- `Douban::parse_year_for_detail`. -/
def parse_year_for_detail (text : String) : String := regexLast findYearParen text

/-- `Douban::parse_id`. -/
def parse_id (text : String) : String := regexLast findId text

/-- `Douban::parse_backgroud_image`. -/
def parse_backgroud_image (text : String) : String := regexLast findBg text

/-- `Douban::parse_year`: `text.split('/').last().unwrap().trim()`. -/
def parse_year (text : String) : String := rustTrim ((rustSplit text '/').getLastD "")

/-- `re_image_domain.replace_all(url, "//img2")` with `re_image_domain = //img\d+`:
every occurrence of `//img` followed by a non-empty maximal digit run is
replaced by `//img2`.  Fuel starts at the text length. -/
def replaceImgGo : Nat → List Char → List Char
  | 0, l => l
  | _ + 1, [] => []
  | fuel + 1, c :: rest =>
    if "//img".data.isPrefixOf (c :: rest) then
      let ds := ((c :: rest).drop 5).takeWhile Char.isDigit
      if ds.isEmpty then c :: replaceImgGo fuel rest
      else "//img2".data ++ replaceImgGo fuel ((c :: rest).drop (5 + ds.length))
    else c :: replaceImgGo fuel rest

/-- `Douban::get_img_by_size`. -/
def get_img_by_size (url : String) (image_size : String) : String :=
  let img_url := String.mk (replaceImgGo url.data.length url.data)
  if image_size == "m" || image_size == "l" then
    rustReplace img_url "s_ratio_poster" image_size
  else img_url

/-- One `Label: (.+?)\n`-style field of `Douban::parse_info`: first match,
absence gives the empty string. -/
def infoField (label : String) (text : String) : String :=
  match firstCapGo (findLabel label.data) text.data with
  | some cap => String.mk cap
  | none => ""

/-- The tuple returned by `Douban::parse_info`. -/
structure InfoFields where
  director : String
  writer : String
  actor : String
  genre : String
  site : String
  country : String
  language : String
  screen : String
  duration : String
  subname : String
  imdb : String
deriving DecidableEq, Repr

/-- `Douban::parse_info`. -/
def parse_info (text : String) : InfoFields :=
  { director := infoField "导演: " text
    writer := infoField "编剧: " text
    actor := infoField "主演: " text
    genre := infoField "类型: " text
    site := infoField "官方网站: " text
    country := infoField "制片国家/地区: " text
    language := infoField "语言: " text
    screen := infoField "上映日期: " text
    duration := infoField "片长: " text
    subname := infoField "又名: " text
    imdb := infoField "IMDb: " text }

/-- `第\w季` at the head of the list (the season part of `re_name_math`). -/
def seasonAt : List Char → Bool
  | '第' :: c :: '季' :: _ => isWordChar c
  | _ => false

/-- Scan for the greedy `.+` of the branch `.+第\w季`: starting at index 1,
return the largest index `j` such that `第\w季` starts at `j` and no newline
occurs before `j` (the `.`s cannot match a newline). -/
def b1go : List Char → Nat → Option Nat → Option Nat
  | [], _, best => best
  | c :: rest, j, best =>
    if c == '\n' then best
    else b1go rest (j + 1) (if seasonAt (c :: rest) then some j else best)

/-- Match the first alternative `.+第\w季` at this position: on success the
whole capture has length `j + 3`. -/
def branch1Len (l : List Char) : Option Nat :=
  match l with
  | [] => none
  | c :: rest => if c == '\n' then none else b1go rest 1 none

/-- Match `re_name_math = (.+第\w季|[\w：！，·]+)\s*(.*)` at
this position: first alternative preferred, `.+` greedy, then greedy `\s*`,
then `(.*)` running to the next newline or the end. -/
def nameMatchAt (l : List Char) : Option (List Char × List Char) :=
  let g1? : Option (List Char) :=
    match branch1Len l with
    | some j => some (l.take (j + 3))
    | none =>
      let run := l.takeWhile isClassChar
      if run.isEmpty then none else some run
  g1?.map fun g1 =>
    let rest := l.drop g1.length
    let ws := rest.takeWhile Char.isWhitespace
    let g2 := (rest.drop ws.length).takeWhile (fun c => !(c == '\n'))
    (g1, g2)

/-- Leftmost match of `re_name_math`. -/
def reNameCapturesAux : List Char → Option (List Char × List Char)
  | [] => none
  | c :: rest =>
    match nameMatchAt (c :: rest) with
    | some r => some r
    | none => reNameCapturesAux rest

/-- `re_name_math.captures(&name_str)` with groups 1 and 2. -/
def reNameCaptures (s : String) : Option (String × String) :=
  (reNameCapturesAux s.data).map fun p => (String.mk p.1, String.mk p.2)

/-- The name/alias split of `Douban::get_movie_info` (lines 211-214):
`captures(..).unwrap()` then groups 1 and 2; a failed match is a panic,
modelled as `none`. -/
def movieNameSplit (s : String) : Option (String × String) := reNameCaptures s

/-- Value of a non-empty ASCII digit run. -/
def digitsVal (l : List Char) : Nat :=
  l.foldl (fun a c => a * 10 + (c.toNat - 48)) 0

/-- Rust's `str::parse::<i32>()`: an optional sign, then one or more ASCII
digits, nothing else (no surrounding whitespace), and the value must fit in
`i32`. -/
def parseI32 (s : String) : Option Int :=
  match s.data with
  | [] => none
  | c :: rest =>
    let (neg, digits) :=
      if c == '-' then (true, rest)
      else if c == '+' then (false, rest) else (false, c :: rest)
    if digits.isEmpty || !(digits.all Char.isDigit) then none
    else
      let v : Int := if neg then -(digitsVal digits : Int) else (digitsVal digits : Int)
      if v < -(2 ^ 31) || 2 ^ 31 ≤ v then none else some v

/-- ASCII lowercasing, for the case-insensitive parts of float parsing. -/
def lowerAscii (c : Char) : Char :=
  if 'A' ≤ c && c ≤ 'Z' then Char.ofNat (c.toNat + 32) else c

/-- An `f32` value as parsed.  Finite values are kept as exact decimal
rationals: rounding to binary f32 (and overflow of huge literals to
infinity) is not modelled, which is faithful for the short decimal rating
strings this program parses. -/
inductive F32 where
  | finite (q : ℚ) : F32
  | inf : F32
  | neginf : F32
  | nan : F32
deriving DecidableEq, Repr

/-- Optional exponent suffix of a float literal: empty, or `e`/`E`, an
optional sign and one or more digits reaching the end of the string. -/
def parseExpPart : List Char → Option Int
  | [] => some 0
  | c :: r =>
    if lowerAscii c == 'e' then
      let (neg, r2) :=
        match r with
        | '-' :: rr => (true, rr)
        | '+' :: rr => (false, rr)
        | _ => (false, r)
      let ds := r2.takeWhile Char.isDigit
      if ds.isEmpty || !(r2.drop ds.length).isEmpty then none
      else some (if neg then -(digitsVal ds : Int) else (digitsVal ds : Int))
    else none

/-- Unsigned decimal part of Rust's float grammar: `Digit+ ('.' Digit*)?` or
`'.' Digit+`, followed by the optional exponent, consuming the whole input. -/
def parseDecimal (l : List Char) : Option ℚ :=
  let ip := l.takeWhile Char.isDigit
  let r1 := l.drop ip.length
  match r1 with
  | '.' :: r2 =>
    let fp := r2.takeWhile Char.isDigit
    if ip.isEmpty && fp.isEmpty then none
    else
      (parseExpPart (r2.drop fp.length)).map fun e =>
        ((digitsVal ip : ℚ) + (digitsVal fp : ℚ) / (10 : ℚ) ^ fp.length) * (10 : ℚ) ^ e
  | _ =>
    if ip.isEmpty then none
    else (parseExpPart r1).map fun e => (digitsVal ip : ℚ) * (10 : ℚ) ^ e

/-- Rust's `str::parse::<f32>()`: optional sign, then (case-insensitively)
`inf`, `infinity`, `nan`, or a decimal number with optional exponent; the
whole string must be consumed.  `none` is a parse error. -/
def parseF32 (s : String) : Option F32 :=
  match s.data with
  | [] => none
  | l =>
    let (neg, l2) :=
      match l with
      | '-' :: r => (true, r)
      | '+' :: r => (false, r)
      | _ => (false, l)
    let low := l2.map lowerAscii
    if low = "inf".data || low = "infinity".data then
      some (if neg then F32.neginf else F32.inf)
    else if low = "nan".data then some F32.nan
    else (parseDecimal l2).map fun q => F32.finite (if neg then -q else q)

/-- Movie-side rating normalization (api.rs lines 129-132 and 219-225): the
raw rating text is kept as a string, only the empty text is replaced by
`"0"`. -/
def movieRating (text : String) : String :=
  if text.isEmpty then "0" else text

/-- `x.text().split_whitespace().next().unwrap_or("")`. -/
def firstWhitespaceToken (s : String) : String :=
  String.mk ((s.data.dropWhile Char.isWhitespace).takeWhile (fun c => !c.isWhitespace))

/-- The `Movie` record of api.rs (search results). -/
structure Movie where
  cat : String
  sid : String
  name : String
  rating : String
  img : String
  year : String
deriving DecidableEq, Repr

/-- The `Celebrity` record of api.rs. -/
structure Celebrity where
  id : String
  img : String
  name : String
  role_type : String
  role : String
deriving DecidableEq, Repr

/-- The `MovieInfo` record of api.rs (movie detail). -/
structure MovieInfo where
  sid : String
  name : String
  original_name : String
  rating : String
  img : String
  year : String
  intro : String
  director : String
  writer : String
  actor : String
  genre : String
  site : String
  country : String
  language : String
  screen : String
  duration : String
  subname : String
  imdb : String
  celebrities : List Celebrity
deriving DecidableEq, Repr

/-- The `Photo` record of api.rs. -/
structure Photo where
  id : String
  small : String
  medium : String
  large : String
  size : String
  width : String
  height : String
deriving DecidableEq, Repr

/-- What the document query surface yields for one `.result` node of the
movie search page: texts are total (empty when the node is missing),
attributes are options (`None` when absent). -/
structure SearchResultNode where
  ratingText : String
  onclick : Option String
  imgSrc : Option String
  titleText : String
  titleMark : String
  subjectText : String
deriving DecidableEq, Repr

/-- One search `.result` entry of `Douban::search` (api.rs lines 127-160).
The `onclick` attribute is read through an explicit `match` and defaults to
the empty string, but the poster `src` attribute is `.unwrap()`ed: a missing
`src` panics, modelled as `none`. -/
def parseSearchResult (node : SearchResultNode) (image_size : String) : Option Movie :=
  let rating := movieRating node.ratingText
  let onclick := node.onclick.getD ""
  match node.imgSrc with
  | none => none
  | some src =>
    let img := get_img_by_size src image_size
    let sid := parse_sid onclick
    let name := node.titleText
    let cat := parse_cat node.titleMark
    let year := parse_year node.subjectText
    some { cat, sid, name, rating, img, year }

/-- The category filter of `Douban::search`. -/
def movieCatOk (m : Movie) : Bool :=
  m.cat == "电影" || m.cat == "电视剧"

/-- The list part of `Douban::search` (api.rs lines 123-167): parse every
`.result` node eagerly (visdom's `map` builds a `Vec`, so one panicking node
aborts the whole request), then filter on the category, then take `limit`
entries when `limit > 0`. -/
def searchAssemble (nodes : List SearchResultNode) (limit : Int) (image_size : String) :
    Option (List Movie) :=
  (nodes.mapM (fun n => parseSearchResult n image_size)).map fun movies =>
    let filtered := movies.filter movieCatOk
    if 0 < limit then filtered.take limit.toNat else filtered

/-- A `li.celebrity` node of the celebrities listing page. -/
structure CelebListNode where
  nameHref : Option String
  avatarStyle : Option String
  nameText : String
  roleText : String
deriving DecidableEq, Repr

/-- One entry of `Douban::get_celebrities` (api.rs lines 316-351): the name
`href` and the avatar `style` attributes are `.unwrap()`ed (missing ⇒ panic
⇒ `none`); the role capture and the whitespace tokens are total. -/
def parseCelebListEntry (node : CelebListNode) : Option Celebrity :=
  match node.nameHref with
  | none => none
  | some href =>
    let id := parse_id href
    match node.avatarStyle with
    | none => none
    | some style =>
      let img := parse_backgroud_image style
      let name := firstWhitespaceToken node.nameText
      let role0 :=
        match firstCapGo findRole node.roleText.data with
        | some cap => rustTrim (String.mk cap)
        | none => ""
      let role_type := firstWhitespaceToken node.roleText
      let role := if role0.isEmpty then role_type else role0
      some { id, img, name, role_type, role }

/-- The role-type filter of `Douban::get_celebrities`. -/
def roleTypeOk (c : Celebrity) : Bool :=
  c.role_type == "导演" || c.role_type == "配音" || c.role_type == "演员"

/-- The list part of `Douban::get_celebrities` (api.rs lines 314-355): eager
parse, filter on the role-type classifier, take at most 15. -/
def getCelebritiesAssemble (nodes : List CelebListNode) : Option (List Celebrity) :=
  (nodes.mapM parseCelebListEntry).map fun cs => (cs.filter roleTypeOk).take 15

/-- A `li.celebrity` node of the movie detail page. -/
structure DetailCelebNode where
  nameHref : Option String
  avatarStyle : Option String
  nameText : String
  roleText : String
deriving DecidableEq, Repr

/-- One celebrity of the movie detail page (api.rs lines 254-272): both
attribute lookups are `.unwrap()`ed; `role_type` is left empty. -/
def parseDetailCeleb (image_size : String) (node : DetailCelebNode) : Option Celebrity :=
  match node.nameHref with
  | none => none
  | some href =>
    let id := parse_id href
    match node.avatarStyle with
    | none => none
    | some style =>
      let img := get_img_by_size (parse_backgroud_image style) image_size
      some { id, img, name := node.nameText, role_type := "", role := node.roleText }

/-- What the document query surface yields for the movie detail page. -/
structure MovieDetailNode where
  nameText : String
  yearText : String
  ratingText : String
  imgSrc : Option String
  introText : String
  infoText : String
  celebNodes : List DetailCelebNode
deriving DecidableEq, Repr

/-- The extraction part of `Douban::get_movie_info` (api.rs lines 208-294):
the title split is `captures(..).unwrap()` (no match ⇒ panic), the poster
`src` is `.unwrap()`ed, everything else defaults.  `.first()` on the
celebrity node set keeps at most the first entry. -/
def parseMovieDetail (node : MovieDetailNode) (sid : String) (image_size : String) :
    Option MovieInfo :=
  match reNameCaptures node.nameText with
  | none => none
  | some (name, original_name) =>
    let year := parse_year_for_detail node.yearText
    let rating := movieRating node.ratingText
    match node.imgSrc with
    | none => none
    | some src =>
      let img := get_img_by_size src image_size
      let intro := rustReplace (rustTrim node.introText) "©豆瓣" ""
      let i := parse_info node.infoText
      match (node.celebNodes.take 1).mapM (parseDetailCeleb image_size) with
      | none => none
      | some celebrities =>
        some { sid, name, original_name, rating, img, year, intro,
               director := i.director, writer := i.writer, actor := i.actor,
               genre := i.genre, site := i.site, country := i.country,
               language := i.language, screen := i.screen, duration := i.duration,
               subname := i.subname, imdb := i.imdb, celebrities }

/-- A `.poster-col3>li` node of the wallpaper page. -/
structure PhotoNode where
  dataId : Option String
  propText : String
deriving DecidableEq, Repr

/-- The size/width/height part of `Douban::get_wallpaper` (api.rs lines
428-435): the trimmed label empty ⇒ both dimensions stay empty; otherwise
the label is split on `x` and `arr[1]` is indexed unconditionally, so a
label without any `x` panics (`none`). -/
def parsePhotoSize (sizeText : String) : Option (String × String × String) :=
  let size := rustTrim sizeText
  if size.isEmpty then some (size, "", "")
  else
    let arr := rustSplit size 'x'
    match arr.get? 1 with
    | some h => some (size, arr.getD 0 "", h)
    | none => none

/-- One wallpaper entry of `Douban::get_wallpaper` (api.rs lines 421-445):
the `data-id` attribute is `.unwrap()`ed; the three size URLs are built from
the id by string substitution. -/
def parsePhoto (node : PhotoNode) : Option Photo :=
  match node.dataId with
  | none => none
  | some id =>
    let small := "https://img2.doubanio.com/view/photo/s/public/p" ++ id ++ ".jpg"
    let medium := "https://img2.doubanio.com/view/photo/m/public/p" ++ id ++ ".jpg"
    let large := "https://img2.doubanio.com/view/photo/l/public/p" ++ id ++ ".jpg"
    match parsePhotoSize node.propText with
    | none => none
    | some (size, width, height) =>
      some { id, small, medium, large, size, width, height }

end Douban

/-- The fixed time-to-live of every cache in the program:
`Duration::from_secs(10 * 60)`. -/
def TTL_SECS : Nat := 10 * 60

/-- Modelled from the spec: the `moka` cache is an external library; its
entry state machine (absent → present(value, inserted_at) → expired) is
taken from §4.5 of the spec, with the TTL constant and the key formats from
the source.  A cache is a list of (key, value, insertion time) entries with
at most one entry per key; time is in seconds.  The capacity bound (100
entries, approximately-LRU eviction) is not modelled: no eviction happens
between the operations the theorems relate. -/
abbrev TtlCache (α : Type) := List (String × α × Nat)

/-- `cache.insert(key, value)` at time `now`: the new entry replaces any
entry with the same key. -/
def cacheInsert {α : Type} (c : TtlCache α) (k : String) (v : α) (now : Nat) :
    TtlCache α :=
  (k, v, now) :: c.filter (fun e => !(e.1 == k))

/-- `cache.get(&key)` at time `now`: an entry is visible while strictly less
than `TTL_SECS` has elapsed since its insertion; from `TTL_SECS` on it is
expired and the read is a miss. -/
def cacheGet {α : Type} (c : TtlCache α) (k : String) (now : Nat) : Option α :=
  match c.find? (fun e => e.1 == k) with
  | some e => if now < e.2.2 + TTL_SECS then some e.2.1 else none
  | none => none

/-- Outcome of one upstream fetch: a transport/timeout failure (surfaced by
`send().await?`), a non-success HTTP status (surfaced by
`error_for_status()`), or a body that the document query surface turned into
`α`. -/
inductive FetchResult (α : Type) where
  | netErr : FetchResult α
  | statusErr : FetchResult α
  | ok : α → FetchResult α

namespace Douban

/-- The movie cache key `format!("movie_{}_{}", sid, image_size)`. -/
def movieCacheKey (sid : String) (image_size : String) : String :=
  "movie_" ++ sid ++ "_" ++ image_size

/-- `Douban::search` (api.rs lines 104-175).  An empty query returns an
empty `Ok` without fetching.  A transport failure propagates through `?`.  A
non-success status is only printed: the function falls through and returns
`Ok` with the still-empty vector.  The outer `Option` models panics inside
extraction. -/
def search (q : String) (fetch : FetchResult (List SearchResultNode)) (limit : Int)
    (image_size : String) : Option (Except Unit (List Movie)) :=
  if q.isEmpty then some (Except.ok [])
  else
    match fetch with
    | FetchResult.netErr => some (Except.error ())
    | FetchResult.statusErr => some (Except.ok [])
    | FetchResult.ok nodes => (searchAssemble nodes limit image_size).map Except.ok

/-- `Douban::get_movie_info` (api.rs lines 192-298).  A fresh cache entry
for the composite key is returned as-is without fetching (the `Bool` records
whether the upstream fetch ran).  On a miss, a transport failure propagates,
while a non-success status hits `error_for_status().unwrap()` and panics
(`none`); a parsed document is extracted and inserted under the composite
key. -/
def get_movie_info (cache : TtlCache MovieInfo) (now : Nat)
    (fetch : FetchResult MovieDetailNode) (sid : String) (image_size : String) :
    Option (Except Unit (MovieInfo × TtlCache MovieInfo × Bool)) :=
  let key := movieCacheKey sid image_size
  match cacheGet cache key now with
  | some info => some (Except.ok (info, cache, false))
  | none =>
    match fetch with
    | FetchResult.netErr => some (Except.error ())
    | FetchResult.statusErr => none
    | FetchResult.ok node =>
      (parseMovieDetail node sid image_size).map fun info =>
        Except.ok (info, cacheInsert cache key info now, true)

/-- `Douban::get_celebrities` (api.rs lines 300-358): transport failure
propagates, non-success status panics through
`error_for_status().unwrap()`. -/
def get_celebrities (fetch : FetchResult (List CelebListNode)) :
    Option (Except Unit (List Celebrity)) :=
  match fetch with
  | FetchResult.netErr => some (Except.error ())
  | FetchResult.statusErr => none
  | FetchResult.ok nodes => (getCelebritiesAssemble nodes).map Except.ok

/-- `Douban::get_wallpaper` (api.rs lines 405-449): the photo cache is keyed
by the subject id alone; transport failure propagates, non-success status
panics. -/
def get_wallpaper (cache : TtlCache (List Photo)) (now : Nat)
    (fetch : FetchResult (List PhotoNode)) (sid : String) :
    Option (Except Unit (List Photo × TtlCache (List Photo) × Bool)) :=
  match cacheGet cache sid now with
  | some ps => some (Except.ok (ps, cache, false))
  | none =>
    match fetch with
    | FetchResult.netErr => some (Except.error ())
    | FetchResult.statusErr => none
    | FetchResult.ok nodes =>
      (nodes.mapM parsePhoto).map fun ps =>
        Except.ok (ps, cacheInsert cache sid ps now, true)

end Douban

namespace DoubanBookApi

/-- The `Rating` record of bookapi.rs (`average: f32`). -/
structure Rating where
  average : Douban.F32
deriving DecidableEq, Repr

/-- The `Image` record of bookapi.rs. -/
structure Image where
  small : String
  medium : String
  large : String
deriving DecidableEq, Repr

/-- The `Tag` record of bookapi.rs. -/
structure Tag where
  name : String
deriving DecidableEq, Repr

/-- The `DoubanBook` record of bookapi.rs. -/
structure DoubanBook where
  id : String
  author : List String
  author_intro : String
  translators : List String
  images : Image
  binding : String
  category : String
  rating : Rating
  isbn13 : String
  pages : String
  price : String
  pubdate : String
  publisher : String
  producer : String
  serials : String
  subtitle : String
  summary : String
  title : String
  tags : List Tag
  origin : String
deriving DecidableEq, Repr

/-- The `SimpleDoubanBook` record of bookapi.rs. -/
structure SimpleDoubanBook where
  id : String
  author : List String
  images : Image
  rating : Rating
  pubdate : String
  publisher : String
  summary : String
  title : String
deriving DecidableEq, Repr

/-- `Image::new`. -/
def Image.new (large : String) : Image :=
  { large, medium := "", small := "" }

/-- `DoubanBook::simple`: every field not in the summary defaults to its
empty value. -/
def DoubanBook.simple (info : SimpleDoubanBook) : DoubanBook :=
  { id := info.id, author := info.author, author_intro := "", translators := [],
    images := info.images, binding := "", category := "", rating := info.rating,
    isbn13 := "", pages := "", price := "", pubdate := info.pubdate,
    publisher := info.publisher, producer := "", serials := "", subtitle := "",
    summary := info.summary, title := info.title, tags := [], origin := "" }

/-- Book-side rating normalization (bookapi.rs lines 113-117 and 175-181):
empty text becomes `Rating::new(0.0)`; non-empty text is
`parse::<f32>().unwrap()`ed, so an unparsable text panics (`none`). -/
def bookRating (rate : String) : Option Rating :=
  if rate.isEmpty then some { average := Douban.F32.finite 0 }
  else (Douban.parseF32 rate).map fun v => { average := v }

/-- The `/`-delimited subjects split of `DoubanBookApi::get_list` (bookapi.rs
lines 80-105), returning (author, pubdate, publisher).  With two tokens the
raw, untrimmed second token is fed to `parse::<i32>()` to decide between
date and publisher. -/
def parseSubjects (sub_str : String) : List String × String × String :=
  let subjects := Douban.rustSplit sub_str '/'
  let len := subjects.length
  if 3 ≤ len then
    let pubdate := Douban.rustTrim (subjects.getD (len - 1) "")
    let publisher := Douban.rustTrim (subjects.getD (len - 2) "")
    let author := (subjects.take (len - 2)).map Douban.rustTrim
    (author, pubdate, publisher)
  else if len = 2 then
    let author := [Douban.rustTrim (subjects.getD 0 "")]
    match Douban.parseI32 (subjects.getD 1 "") with
    | some _ => (author, Douban.rustTrim (subjects.getD 1 ""), "")
    | none => (author, "", Douban.rustTrim (subjects.getD 1 ""))
  else if len = 1 then
    ([Douban.rustTrim (subjects.getD 0 "")], "", "")
  else ([], "", "")

/-- One `.result` node of the book search page. -/
structure BookResultNode where
  onclick : Option String
  titleText : String
  summaryText : String
  picSrc : Option String
  ratingText : String
  subjectCastText : String
deriving DecidableEq, Repr

/-- One search `.result` entry of `DoubanBookApi::get_list` (bookapi.rs lines
73-129): the `onclick` and the picture `src` attributes are `.unwrap()`ed
(missing ⇒ panic), and a non-empty unparsable rating text panics inside
`bookRating`. -/
def parseBookSearchResult (node : BookResultNode) : Option DoubanBook :=
  match node.onclick with
  | none => none
  | some onclick =>
    let title := Douban.rustTrim node.titleText
    let summary := Douban.rustTrim node.summaryText
    match node.picSrc with
    | none => none
    | some large =>
      let rate := node.ratingText
      let (author, pubdate, publisher) := parseSubjects node.subjectCastText
      let id := Douban.parse_sid onclick
      match bookRating rate with
      | none => none
      | some rating =>
        let images := Image.new large
        some (DoubanBook.simple
          { id, author, images, rating, pubdate, publisher, summary, title })

/-- `DoubanBookApi::get_list` (bookapi.rs lines 52-140).  An empty query
returns an empty `Ok`; a transport failure propagates through `?`; a
non-success status is only printed and the still-empty vector is returned as
`Ok`.  The parsed entries are truncated with `take(count as usize)`; a
negative `count` wraps to a huge `usize`, taking everything. -/
def get_list (q : String) (fetch : FetchResult (List BookResultNode)) (count : Int) :
    Option (Except Unit (List DoubanBook)) :=
  if q.isEmpty then some (Except.ok [])
  else
    match fetch with
    | FetchResult.netErr => some (Except.error ())
    | FetchResult.statusErr => some (Except.ok [])
    | FetchResult.ok nodes =>
      (nodes.mapM parseBookSearchResult).map fun books =>
        Except.ok (if count < 0 then books else books.take count.toNat)

/-- `DoubanBookApi::get_text`: `s.split(':').collect::<Vec<_>>()[1].trim()`.
Every caller guards with `starts_with("…:")`, so index 1 exists; the
default covers the impossible branch. -/
def getText (s : String) : String :=
  Douban.rustTrim ((Douban.rustSplit s ':').getD 1 "")

/-- `DoubanBookApi::get_texts`: collect sibling lines until one holding a
colon, skipping bare `/` separators. -/
def getTexts : List String → List String
  | [] => []
  | e :: rest =>
    if Douban.rustContainsChar e ':' then []
    else if e = "/" then getTexts rest
    else Douban.rustTrim e :: getTexts rest

/-- The `info_array` of `get_book_internal`: trim the `#info` text, split on
newlines, drop blank lines, trim each line. -/
def mkInfoArray (info : String) : List String :=
  ((Douban.rustSplit (Douban.rustTrim info) '\n').filter
    (fun x => !(Douban.rustTrim x).isEmpty)).map Douban.rustTrim

/-- The mutable locals filled by the label loop of `get_book_internal`. -/
structure BookInfoAcc where
  author : List String := []
  translators : List String := []
  producer : String := ""
  serials : String := ""
  origin : String := ""
  publisher : String := ""
  pubdate : String := ""
  pages : String := ""
  price : String := ""
  binding : String := ""
  subtitle : String := ""
  isbn13 : String := ""
deriving DecidableEq, Repr

/-- The `starts_with` chain of the label loop. -/
def applyLabel (acc : BookInfoAcc) (s : String) : BookInfoAcc :=
  if Douban.rustStartsWith s "出品方:" then { acc with producer := getText s }
  else if Douban.rustStartsWith s "出版社:" then { acc with publisher := getText s }
  else if Douban.rustStartsWith s "副标题:" then { acc with subtitle := getText s }
  else if Douban.rustStartsWith s "原作名:" then { acc with origin := getText s }
  else if Douban.rustStartsWith s "出版年:" then { acc with pubdate := getText s }
  else if Douban.rustStartsWith s "页数:" then { acc with pages := getText s }
  else if Douban.rustStartsWith s "定价:" then { acc with price := getText s }
  else if Douban.rustStartsWith s "装帧:" then { acc with binding := getText s }
  else if Douban.rustStartsWith s "丛书:" then { acc with serials := getText s }
  else if Douban.rustStartsWith s "ISBN:" then { acc with isbn13 := getText s }
  else acc

/-- The label loop of `get_book_internal` (bookapi.rs lines 213-255),
indexing `info_array[i]` unconditionally (`none` models the
index-out-of-bounds panic, e.g. on an empty array or when `作者:` is the
last line, whose `continue` skips the bounds check).  The fuel starts at
`arr.length + 1`, which bounds the number of iterations since `i` grows by
one each time. -/
def infoLoopGo (arr : List String) : Nat → Nat → BookInfoAcc → Option BookInfoAcc
  | 0, _, _ => none
  | fuel + 1, i, acc =>
    match arr.get? i with
    | none => none
    | some s =>
      if s = "作者:" then
        infoLoopGo arr fuel (i + 1)
          { acc with author := acc.author ++ getTexts (arr.drop (i + 1)) }
      else if s = "译者:" then
        infoLoopGo arr fuel (i + 1)
          { acc with translators := acc.translators ++ getTexts (arr.drop (i + 1)) }
      else
        let acc2 := applyLabel acc s
        if i = arr.length - 1 then some acc2 else infoLoopGo arr fuel (i + 1) acc2

/-- What the document query surface yields for the book detail page.  `url`
is the final response URL (`t.url()`, after redirects), from which the id is
taken. -/
structure BookDetailNode where
  url : String
  titleText : String
  nbgHref : Option String
  imgSrc : Option String
  tagTexts : List String
  ratingText : String
  summaryHtml : String
  authorIntroHtml : String
  infoText : String
deriving DecidableEq, Repr

/-- The extraction part of `DoubanBookApi::get_book_internal` (bookapi.rs
lines 152-284): the id is the second-to-last `/`-segment of the response
URL; the cover `href`/`src` attributes are `.unwrap()`ed; the rating parse
may panic; the label loop may panic; `images.medium` duplicates the large
cover. -/
def parseBookDetail (node : BookDetailNode) : Option DoubanBook :=
  let parts := Douban.rustSplit node.url '/'
  if parts.length < 2 then none
  else
    let id := parts.getD (parts.length - 2) ""
    let title := node.titleText
    match node.nbgHref with
    | none => none
    | some large_img =>
      match node.imgSrc with
      | none => none
      | some small_img =>
        let tags := node.tagTexts.map fun t => ({ name := t } : Tag)
        match bookRating (Douban.rustTrim node.ratingText) with
        | none => none
        | some rating =>
          let summary := Douban.rustReplace node.summaryHtml "©豆瓣" ""
          let author_intro := Douban.rustTrim node.authorIntroHtml
          let arr := mkInfoArray node.infoText
          match infoLoopGo arr (arr.length + 1) 0 {} with
          | none => none
          | some acc =>
            some { id, author := acc.author, author_intro,
                   translators := acc.translators,
                   images := { medium := large_img, large := large_img,
                               small := small_img },
                   binding := acc.binding, category := "", rating,
                   isbn13 := acc.isbn13, pages := acc.pages, price := acc.price,
                   pubdate := acc.pubdate, publisher := acc.publisher,
                   producer := acc.producer, serials := acc.serials,
                   subtitle := acc.subtitle, summary, title, tags,
                   origin := acc.origin }

/-- `DoubanBookApi::get_book_internal` (bookapi.rs lines 142-288): both
transport failures and non-success statuses are returned as `Err`; on
success the assembled record is inserted under its id and then under its
ISBN-13. -/
def get_book_internal (cache : TtlCache DoubanBook) (now : Nat)
    (fetch : FetchResult BookDetailNode) :
    Option (Except Unit (DoubanBook × TtlCache DoubanBook × Bool)) :=
  match fetch with
  | FetchResult.netErr => some (Except.error ())
  | FetchResult.statusErr => some (Except.error ())
  | FetchResult.ok node =>
    (parseBookDetail node).map fun book =>
      Except.ok (book,
        cacheInsert (cacheInsert cache book.id book now) book.isbn13 book now,
        true)

/-- `DoubanBookApi::get_book_info` (bookapi.rs lines 300-307): the cache is
probed under the subject id before fetching. -/
def get_book_info (cache : TtlCache DoubanBook) (now : Nat)
    (fetch : FetchResult BookDetailNode) (id : String) :
    Option (Except Unit (DoubanBook × TtlCache DoubanBook × Bool)) :=
  match cacheGet cache id now with
  | some b => some (Except.ok (b, cache, false))
  | none => get_book_internal cache now fetch

/-- `DoubanBookApi::get_book_info_by_isbn` (bookapi.rs lines 290-298): the
cache is probed under the ISBN before fetching. -/
def get_book_info_by_isbn (cache : TtlCache DoubanBook) (now : Nat)
    (fetch : FetchResult BookDetailNode) (isbn : String) :
    Option (Except Unit (DoubanBook × TtlCache DoubanBook × Bool)) :=
  match cacheGet cache isbn now with
  | some b => some (Except.ok (b, cache, false))
  | none => get_book_internal cache now fetch

end DoubanBookApi

/-! Helper lemmas about the cache model and the parsers. -/

theorem cacheGet_insert_self {α : Type} (c : TtlCache α) (k : String) (v : α)
    (t now : Nat) :
    cacheGet (cacheInsert c k v t) k now =
      if now < t + TTL_SECS then some v else none := by
  unfold cacheGet cacheInsert
  rw [List.find?_cons_of_pos _ (by simp)]

theorem cacheGet_insert_insert_fst {α : Type} (c : TtlCache α) (k₁ k₂ : String)
    (v : α) (t now : Nat) :
    cacheGet (cacheInsert (cacheInsert c k₁ v t) k₂ v t) k₁ now =
      if now < t + TTL_SECS then some v else none := by
  by_cases h : k₂ = k₁
  · subst h; exact cacheGet_insert_self _ _ _ _ _
  · have h2 : ¬k₁ = k₂ := fun e => h e.symm
    unfold cacheGet cacheInsert
    rw [List.filter_cons_of_pos (by simp [h2])]
    rw [List.find?_cons_of_neg _ (by simp [h])]
    rw [List.find?_cons_of_pos _ (by simp)]

theorem parse_sid_empty : Douban.parse_sid "" = "" := rfl

theorem parseF32_89 :
    Douban.parseF32 "8.9" = some (Douban.F32.finite (89 / 10 : ℚ)) := by
  have h : Douban.parseF32 "8.9" =
      some (Douban.F32.finite
        ((((8 : ℕ) : ℚ) + ((9 : ℕ) : ℚ) / (10 : ℚ) ^ (1 : ℕ)) * (10 : ℚ) ^ (0 : ℤ))) := rfl
  rw [h]
  norm_num

theorem parseF32_75 :
    Douban.parseF32 "7.5" = some (Douban.F32.finite (15 / 2 : ℚ)) := by
  have h : Douban.parseF32 "7.5" =
      some (Douban.F32.finite
        ((((7 : ℕ) : ℚ) + ((5 : ℕ) : ℚ) / (10 : ℚ) ^ (1 : ℕ)) * (10 : ℚ) ^ (0 : ℤ))) := rfl
  rw [h]
  norm_num

theorem movieCacheKey_right_inj (sid s₁ s₂ : String)
    (h : Douban.movieCacheKey sid s₁ = Douban.movieCacheKey sid s₂) : s₁ = s₂ := by
  have h2 := congrArg String.data h
  simp only [Douban.movieCacheKey, String.data_append] at h2
  exact String.ext (List.append_cancel_left h2)

/-! Concrete inputs used by witnesses and counterexamples. -/

/-- A movie search result whose poster `img` has no `src` attribute. -/
def exNoSrcNode : Douban.SearchResultNode :=
  { ratingText := "", onclick := some "sid: 123,", imgSrc := none,
    titleText := "霸王别姬", titleMark := "[电影]", subjectText := "张国荣 / 1993" }

/-- A book search result whose title link has no `onclick` attribute. -/
def exNoOnclickBookNode : DoubanBookApi.BookResultNode :=
  { onclick := none, titleText := "活着", summaryText := "", picSrc := some "p.jpg",
    ratingText := "9.4", subjectCastText := "余华 / 作家出版社 / 2012" }

/-- A movie search result whose title link has no `onclick` attribute but
whose poster has a `src`. -/
def exDefaultedNode : Douban.SearchResultNode :=
  { ratingText := "", onclick := none,
    imgSrc := some "//img3.doubanio.com/s_ratio_poster/p1.jpg",
    titleText := "甲", titleMark := "[电视剧]", subjectText := "乙 / 2001" }

def exSearchNodes : List Douban.SearchResultNode :=
  [ { ratingText := "9.7", onclick := some "sid: 1292052,", imgSrc := some "",
      titleText := "肖申克的救赎", titleMark := "[电影]", subjectText := "1994" },
    { ratingText := "9.3", onclick := some "sid: 1418019,", imgSrc := some "",
      titleText := "地球脉动", titleMark := "[纪录片]", subjectText := "2006" },
    { ratingText := "9.4", onclick := some "sid: 2156663,", imgSrc := some "",
      titleText := "琅琊榜", titleMark := "[电视剧]", subjectText := "2015" } ]

def exSearchMovies : List Douban.Movie :=
  [ { cat := "电影", sid := "1292052", name := "肖申克的救赎", rating := "9.7",
      img := "", year := "1994" },
    { cat := "纪录片", sid := "1418019", name := "地球脉动", rating := "9.3",
      img := "", year := "2006" },
    { cat := "电视剧", sid := "2156663", name := "琅琊榜", rating := "9.4",
      img := "", year := "2015" } ]

def exCelebNodes : List Douban.CelebListNode :=
  [ { nameHref := some "/celebrity/1047973/",
      avatarStyle := some "background-image: url(https://img1.doubanio.com/p616.jpg)",
      nameText := "宫崎骏 Hayao Miyazaki", roleText := "导演 Director" },
    { nameHref := some "/celebrity/1000525/",
      avatarStyle := some "background-image: url(https://img2.doubanio.com/p617.jpg)",
      nameText := "铃木敏夫 Toshio Suzuki", roleText := "制片人 Producer" } ]

def exCelebs : List Douban.Celebrity :=
  [ { id := "1047973", img := "https://img1.doubanio.com/p616.jpg", name := "宫崎骏",
      role_type := "导演", role := "导演" },
    { id := "1000525", img := "https://img2.doubanio.com/p617.jpg", name := "铃木敏夫",
      role_type := "制片人", role := "制片人" } ]

def exMovieInfo : Douban.MovieInfo :=
  { sid := "1", name := "n", original_name := "", rating := "0", img := "",
    year := "", intro := "", director := "", writer := "", actor := "", genre := "",
    site := "", country := "", language := "", screen := "", duration := "",
    subname := "", imdb := "", celebrities := [] }

/-- A movie detail page whose title does not match `re_name_math`. -/
def exBadTitleNode : Douban.MovieDetailNode :=
  { nameText := "", yearText := "", ratingText := "", imgSrc := some "",
    introText := "", infoText := "", celebNodes := [] }

def exBookNode : DoubanBookApi.BookDetailNode :=
  { url := "https://book.douban.com/subject/123/", titleText := "T",
    nbgHref := some "L", imgSrc := some "S", tagTexts := [], ratingText := "",
    summaryHtml := "", authorIntroHtml := "", infoText := "ISBN: 9781234567897" }

def exBook : DoubanBookApi.DoubanBook :=
  { id := "123", author := [], author_intro := "", translators := [],
    images := { small := "S", medium := "L", large := "L" }, binding := "",
    category := "", rating := { average := Douban.F32.finite 0 },
    isbn13 := "9781234567897", pages := "", price := "", pubdate := "",
    publisher := "", producer := "", serials := "", subtitle := "", summary := "",
    title := "T", tags := [], origin := "" }

def exBookCache2 : TtlCache DoubanBookApi.DoubanBook :=
  cacheInsert (cacheInsert [] exBook.id exBook 0) exBook.isbn13 exBook 0

/-! The claims. -/

/-- Claim C1 (corrected), counterexample: a movie search result whose poster
`img` has no `src` attribute makes the whole extraction panic (`none`), and so
does a book search result whose title link has no `onclick` attribute — the
field does not resolve to an empty default and assembly does not continue. -/
theorem C1_counterexample :
    Douban.parseSearchResult exNoSrcNode "" = none
    ∧ DoubanBookApi.parseBookSearchResult exNoOnclickBookNode = none :=
  ⟨rfl, rfl⟩

/-- Claim C1, amended: fields read through guarded lookups (the movie-search
`onclick`, rating texts, the `#info` label regexes) do resolve to empty
defaults and assembly continues, but attribute lookups that the code
`.unwrap()`s — the poster `src` in movie search, the book-search `onclick`,
the celebrity avatar `style` — panic and abort the whole extraction when the
attribute is missing. -/
theorem C1_field_missing_amended :
    (∀ (node : Douban.SearchResultNode) (sz : String), node.imgSrc = none →
        Douban.parseSearchResult node sz = none)
    ∧ (∀ node : DoubanBookApi.BookResultNode, node.onclick = none →
        DoubanBookApi.parseBookSearchResult node = none)
    ∧ (∀ (node : Douban.CelebListNode) (href : String), node.nameHref = some href →
        node.avatarStyle = none → Douban.parseCelebListEntry node = none)
    ∧ (∀ (node : Douban.SearchResultNode) (sz img : String), node.onclick = none →
        node.imgSrc = some img →
        Douban.parseSearchResult node sz =
          some { cat := Douban.parse_cat node.titleMark, sid := "",
                 name := node.titleText,
                 rating := Douban.movieRating node.ratingText,
                 img := Douban.get_img_by_size img sz,
                 year := Douban.parse_year node.subjectText })
    ∧ ((Douban.parse_info "类型: 剧情\n").director = ""
        ∧ (Douban.parse_info "类型: 剧情\n").genre = "剧情") := by
  refine ⟨?_, ?_, ?_, ?_, by constructor <;> rfl⟩
  · intro node sz h
    obtain ⟨rt, oc, is, tt, tm, st⟩ := node
    simp only at h
    subst h
    rfl
  · intro node h
    obtain ⟨oc, tt, st, ps, rt, sc⟩ := node
    simp only at h
    subst h
    rfl
  · intro node href h1 h2
    obtain ⟨nh, av, nt, rt⟩ := node
    simp only at h1 h2
    subst h1; subst h2
    rfl
  · intro node sz img h1 h2
    obtain ⟨rt, oc, is, tt, tm, st⟩ := node
    simp only at h1 h2
    subst h1; subst h2
    simp [Douban.parseSearchResult, parse_sid_empty]

/-- Witness for C1: a search entry with a missing `onclick` but a present
poster `src` is still assembled, with the sid defaulting to the empty
string. -/
theorem C1_witness :
    Douban.parseSearchResult exDefaultedNode "l" =
      some { cat := Douban.parse_cat exDefaultedNode.titleMark, sid := "",
             name := exDefaultedNode.titleText,
             rating := Douban.movieRating exDefaultedNode.ratingText,
             img := Douban.get_img_by_size "//img3.doubanio.com/s_ratio_poster/p1.jpg" "l",
             year := Douban.parse_year exDefaultedNode.subjectText } :=
  C1_field_missing_amended.2.2.2.1 exDefaultedNode "l"
    "//img3.doubanio.com/s_ratio_poster/p1.jpg" rfl rfl

/-- Claim C2 (corrected), counterexample: the non-empty, non-numeric rating
text "abc" makes the book rating parse panic (`parse::<f32>().unwrap()`),
instead of normalizing to 0; on the movie side it is kept verbatim, not
replaced by "0". -/
theorem C2_counterexample :
    DoubanBookApi.bookRating "abc" = none ∧ Douban.movieRating "abc" = "abc" :=
  ⟨rfl, rfl⟩

/-- Claim C2, amended: empty rating text normalizes to 0 ("0" for movies,
0.0 for books) and a parsable token like "8.9" yields that number for books;
but a movie rating text is kept verbatim whatever it is, and a non-empty
unparsable book rating text panics rather than normalizing to 0. -/
theorem C2_rating_amended :
    DoubanBookApi.bookRating "" = some { average := Douban.F32.finite 0 }
    ∧ DoubanBookApi.bookRating "8.9" = some { average := Douban.F32.finite (89 / 10 : ℚ) }
    ∧ Douban.movieRating "" = "0"
    ∧ (∀ s : String, s.isEmpty = false → Douban.movieRating s = s)
    ∧ (∀ (s : String) (v : Douban.F32), s.isEmpty = false →
        Douban.parseF32 s = some v →
        DoubanBookApi.bookRating s = some { average := v })
    ∧ (∀ s : String, s.isEmpty = false → Douban.parseF32 s = none →
        DoubanBookApi.bookRating s = none) := by
  refine ⟨rfl, ?_, rfl, ?_, ?_, ?_⟩
  · have h : DoubanBookApi.bookRating "8.9" =
        (Douban.parseF32 "8.9").map (fun v => { average := v }) := rfl
    rw [h, parseF32_89]
    rfl
  · intro s h
    simp [Douban.movieRating, h]
  · intro s v h hp
    simp [DoubanBookApi.bookRating, h, hp]
  · intro s h hp
    simp [DoubanBookApi.bookRating, h, hp]

/-- Witness for C2: the parsable rating text "7.5" yields the book rating
7.5. -/
theorem C2_witness :
    DoubanBookApi.bookRating "7.5" = some { average := Douban.F32.finite (15 / 2 : ℚ) } :=
  C2_rating_amended.2.2.2.2.1 "7.5" (Douban.F32.finite (15 / 2 : ℚ)) rfl parseF32_75

/-- Claim C3 (code_bug): evaluating the subjects split at the claim's own
example.  For "Author / 2020" the code feeds the raw token " 2020" to
`parse::<i32>()`, which rejects surrounding whitespace, so the token is
classified as a publisher: the code yields publisher = "2020" and
pubdate = "", while the claim (and spec §8) require pubdate = "2020" and
publisher = "".  Without the spaces the intended date branch is taken. -/
theorem C3_subjects_split_eval :
    DoubanBookApi.parseSubjects "Author / 2020" = (["Author"], "", "2020")
    ∧ Douban.parseI32 " 2020" = none
    ∧ DoubanBookApi.parseSubjects "Author/2020" = (["Author"], "2020", "")
    ∧ DoubanBookApi.parseSubjects "A / B / C / Press Co / 2020" =
        (["A", "B", "C"], "2020", "Press Co")
    ∧ DoubanBookApi.parseSubjects "Author / Press Co" = (["Author"], "", "Press Co")
    ∧ DoubanBookApi.parseSubjects "Author" = (["Author"], "", "") := by
  refine ⟨rfl, rfl, rfl, rfl, rfl, rfl⟩

/-- Claim C4 (confirmed): for a positive limit N, the movie search result is
exactly the parsed entries whose category is 电影 or 电视剧, in document
order, truncated to N entries, with the truncation applied to the already
filtered sequence; so every returned entry passes the filter, the result is
a sublist (order-preserving) of the parsed entries, and its length is at
most N. -/
theorem C4_filter_then_limit :
    ∀ (nodes : List Douban.SearchResultNode) (sz : String)
      (movies : List Douban.Movie) (N : Int), 0 < N →
      nodes.mapM (fun n => Douban.parseSearchResult n sz) = some movies →
      Douban.searchAssemble nodes N sz =
          some ((movies.filter Douban.movieCatOk).take N.toNat)
        ∧ (∀ m ∈ (movies.filter Douban.movieCatOk).take N.toNat, Douban.movieCatOk m)
        ∧ ((movies.filter Douban.movieCatOk).take N.toNat).Sublist movies
        ∧ ((movies.filter Douban.movieCatOk).take N.toNat).length ≤ N.toNat := by
  intro nodes sz movies N hN hmap
  refine ⟨?_, ?_, ?_, ?_⟩
  · unfold Douban.searchAssemble
    rw [hmap]
    simp [hN]
  · intro m hm
    exact List.of_mem_filter (List.take_subset _ _ hm)
  · exact (List.take_sublist _ _).trans (List.filter_sublist _)
  · exact List.length_take_le _ _

/-- Witness for C4: with limit 2 over a movie, a documentary and a TV
series, the documentary does not consume a slot. -/
theorem C4_witness :
    Douban.searchAssemble exSearchNodes 2 "" =
      some ((exSearchMovies.filter Douban.movieCatOk).take (2 : Int).toNat) :=
  (C4_filter_then_limit exSearchNodes "" exSearchMovies 2 (by decide) (by rfl)).1

/-- Claim C5 (confirmed): the celebrities listing keeps exactly the parsed
entries whose role-type classifier is 导演 (director), 配音 (voice) or 演员
(actor), in document order, truncated to at most 15. -/
theorem C5_role_filter :
    ∀ (nodes : List Douban.CelebListNode) (cs : List Douban.Celebrity),
      nodes.mapM Douban.parseCelebListEntry = some cs →
      Douban.getCelebritiesAssemble nodes =
          some ((cs.filter Douban.roleTypeOk).take 15)
        ∧ (∀ c ∈ (cs.filter Douban.roleTypeOk).take 15,
            c.role_type = "导演" ∨ c.role_type = "配音" ∨ c.role_type = "演员")
        ∧ ((cs.filter Douban.roleTypeOk).take 15).Sublist cs
        ∧ ((cs.filter Douban.roleTypeOk).take 15).length ≤ 15 := by
  intro nodes cs hmap
  refine ⟨?_, ?_, ?_, ?_⟩
  · unfold Douban.getCelebritiesAssemble
    rw [hmap]
    rfl
  · intro c hc
    have := List.of_mem_filter (List.take_subset _ _ hc)
    simpa [Douban.roleTypeOk, or_assoc] using this
  · exact (List.take_sublist _ _).trans (List.filter_sublist _)
  · exact List.length_take_le _ _

/-- Witness for C5: a director is kept and a producer (制片人) is dropped. -/
theorem C5_witness :
    Douban.getCelebritiesAssemble exCelebNodes =
      some ((exCelebs.filter Douban.roleTypeOk).take 15) :=
  (C5_role_filter exCelebNodes exCelebs (by rfl)).1

/-- Claim C6 (confirmed): the result cache TTL is fixed at 10 minutes; a read
of key K before TTL expiry after an insert returns the inserted value, a read
from TTL expiry on is a miss; the movie cache key is the composite
`movie_{sid}_{image_size}`, so for a fixed subject id different image sizes
give distinct keys; and a cache hit returns the cached value without
invoking the upstream fetch (the returned flag is `false` and the fetch
argument is never consulted). -/
theorem C6_movie_cache :
    TTL_SECS = 600
    ∧ (∀ (c : TtlCache Douban.MovieInfo) (k : String) (v : Douban.MovieInfo)
        (t now : Nat), now < t + TTL_SECS →
        cacheGet (cacheInsert c k v t) k now = some v)
    ∧ (∀ (c : TtlCache Douban.MovieInfo) (k : String) (v : Douban.MovieInfo)
        (t now : Nat), t + TTL_SECS ≤ now →
        cacheGet (cacheInsert c k v t) k now = none)
    ∧ (∀ sid s₁ s₂ : String,
        Douban.movieCacheKey sid s₁ = Douban.movieCacheKey sid s₂ → s₁ = s₂)
    ∧ (∀ (cache : TtlCache Douban.MovieInfo) (now : Nat)
        (fetch : FetchResult Douban.MovieDetailNode) (sid sz : String)
        (info : Douban.MovieInfo),
        cacheGet cache (Douban.movieCacheKey sid sz) now = some info →
        Douban.get_movie_info cache now fetch sid sz =
          some (Except.ok (info, cache, false))) := by
  refine ⟨rfl, ?_, ?_, movieCacheKey_right_inj, ?_⟩
  · intro c k v t now h
    rw [cacheGet_insert_self, if_pos h]
  · intro c k v t now h
    rw [cacheGet_insert_self, if_neg (by omega)]
  · intro cache now fetch sid sz info h
    simp [Douban.get_movie_info, h]

/-- Witness for C6: a concrete insert is readable at 599 s, expired at
600 s, and a hit short-circuits the fetch. -/
theorem C6_witness :
    cacheGet (cacheInsert ([] : TtlCache Douban.MovieInfo)
        (Douban.movieCacheKey "1" "m") exMovieInfo 0)
        (Douban.movieCacheKey "1" "m") 599 = some exMovieInfo
    ∧ cacheGet (cacheInsert ([] : TtlCache Douban.MovieInfo)
        (Douban.movieCacheKey "1" "m") exMovieInfo 0)
        (Douban.movieCacheKey "1" "m") 600 = none
    ∧ Douban.get_movie_info
        (cacheInsert ([] : TtlCache Douban.MovieInfo)
          (Douban.movieCacheKey "1" "m") exMovieInfo 0)
        10 FetchResult.netErr "1" "m" =
        some (Except.ok (exMovieInfo,
          cacheInsert ([] : TtlCache Douban.MovieInfo)
            (Douban.movieCacheKey "1" "m") exMovieInfo 0, false)) :=
  ⟨C6_movie_cache.2.1 [] _ exMovieInfo 0 599 (by decide),
   C6_movie_cache.2.2.1 [] _ exMovieInfo 0 600 (by decide),
   C6_movie_cache.2.2.2.2 _ 10 FetchResult.netErr "1" "m" exMovieInfo (by rfl)⟩

/-- Claim C7 (corrected), counterexample: a movie search whose upstream
fetch fails with a non-success HTTP status returns a SUCCESSFUL empty result
(`Ok` with the empty list), not a failure. -/
theorem C7_counterexample :
    Douban.search "蝙蝠侠" FetchResult.statusErr 3 "" = some (Except.ok []) := rfl

/-- Claim C7, amended: transport/timeout failures propagate as errors in
every operation (unretried, extraction never invoked), and the book detail
fetch also propagates non-success statuses as errors; but movie search and
book search swallow a non-success status into a successful empty result, and
movie detail, celebrities and wallpaper panic on a non-success status
(`error_for_status().unwrap()`) instead of returning a failure. -/
theorem C7_upstream_amended :
    (∀ (q : String) (limit : Int) (sz : String), q.isEmpty = false →
        Douban.search q FetchResult.netErr limit sz = some (Except.error ()))
    ∧ (∀ (q : String) (limit : Int) (sz : String), q.isEmpty = false →
        Douban.search q FetchResult.statusErr limit sz = some (Except.ok []))
    ∧ (∀ (cache : TtlCache Douban.MovieInfo) (now : Nat) (sid sz : String),
        cacheGet cache (Douban.movieCacheKey sid sz) now = none →
        Douban.get_movie_info cache now FetchResult.netErr sid sz =
            some (Except.error ())
          ∧ Douban.get_movie_info cache now FetchResult.statusErr sid sz = none)
    ∧ (Douban.get_celebrities
          (FetchResult.netErr : FetchResult (List Douban.CelebListNode)) =
            some (Except.error ())
        ∧ Douban.get_celebrities
          (FetchResult.statusErr : FetchResult (List Douban.CelebListNode)) = none)
    ∧ (∀ (cache : TtlCache (List Douban.Photo)) (now : Nat) (sid : String),
        cacheGet cache sid now = none →
        Douban.get_wallpaper cache now FetchResult.netErr sid =
            some (Except.error ())
          ∧ Douban.get_wallpaper cache now FetchResult.statusErr sid = none)
    ∧ (∀ (cache : TtlCache DoubanBookApi.DoubanBook) (now : Nat),
        DoubanBookApi.get_book_internal cache now FetchResult.netErr =
            some (Except.error ())
          ∧ DoubanBookApi.get_book_internal cache now FetchResult.statusErr =
            some (Except.error ()))
    ∧ (∀ (q : String) (count : Int), q.isEmpty = false →
        DoubanBookApi.get_list q FetchResult.netErr count = some (Except.error ())
          ∧ DoubanBookApi.get_list q FetchResult.statusErr count =
            some (Except.ok [])) := by
  refine ⟨?_, ?_, ?_, ⟨rfl, rfl⟩, ?_, fun cache now => ⟨rfl, rfl⟩, ?_⟩
  · intro q limit sz h
    simp [Douban.search, h]
  · intro q limit sz h
    simp [Douban.search, h]
  · intro cache now sid sz h
    constructor <;> simp [Douban.get_movie_info, h]
  · intro cache now sid h
    constructor <;> simp [Douban.get_wallpaper, h]
  · intro q count h
    constructor <;> simp [DoubanBookApi.get_list, h]

/-- Witness for C7: a transport failure on a non-empty movie search query
propagates as an error. -/
theorem C7_witness :
    Douban.search "阿凡达" FetchResult.netErr 3 "" = some (Except.error ()) :=
  C7_upstream_amended.1 "阿凡达" 3 "" rfl

/-- Claim C8 (corrected), counterexample: on a title that `re_name_math`
does not match (the empty title), the split does not fall back to
whole-string-primary/empty-alias — it panics (`captures(..).unwrap()`),
modelled as `none`. -/
theorem C8_counterexample :
    Douban.movieNameSplit "" ≠ some ("", "") ∧ Douban.movieNameSplit "" = none :=
  ⟨by decide, rfl⟩

/-- Claim C8, amended: when `re_name_math` matches, capture group 1 becomes
the primary name and group 2 the original/alias name; when it does not match
(e.g. an empty or symbol-only title), movie-detail extraction panics and no
record is assembled, instead of defaulting to the whole string. -/
theorem C8_name_split_amended :
    Douban.movieNameSplit "三体 Santi" = some ("三体", "Santi")
    ∧ Douban.movieNameSplit "!!" = none
    ∧ (∀ (node : Douban.MovieDetailNode) (sid sz : String),
        Douban.reNameCaptures node.nameText = none →
        Douban.parseMovieDetail node sid sz = none)
    ∧ (∀ (node : Douban.MovieDetailNode) (sid sz : String)
        (info : Douban.MovieInfo),
        Douban.parseMovieDetail node sid sz = some info →
        Douban.reNameCaptures node.nameText =
          some (info.name, info.original_name)) := by
  refine ⟨rfl, rfl, ?_, ?_⟩
  · intro node sid sz h
    simp [Douban.parseMovieDetail, h]
  · intro node sid sz info h
    unfold Douban.parseMovieDetail at h
    rcases hc : Douban.reNameCaptures node.nameText with _ | ⟨name, oname⟩
    · rw [hc] at h
      exact absurd h (by simp)
    · rw [hc] at h
      rcases hi : node.imgSrc with _ | src
      · rw [hi] at h
        simp at h
      · rw [hi] at h
        rcases hm : (node.celebNodes.take 1).mapM (Douban.parseDetailCeleb sz)
          with _ | cs
        · rw [hm] at h
          simp at h
        · rw [hm] at h
          simp at h
          subst h
          rfl

/-- Witness for C8: the movie detail page with an empty title is rejected
whole. -/
theorem C8_witness : Douban.parseMovieDetail exBadTitleNode "1" "" = none :=
  C8_name_split_amended.2.2.1 exBadTitleNode "1" "" rfl

/-- Claim C9 (corrected), counterexample: a non-empty photo size label
without any `x` (here "1080") does not yield verbatim width/height parts —
indexing `arr[1]` panics and the photo extraction aborts. -/
theorem C9_counterexample :
    Douban.parsePhoto { dataId := some "2561716440", propText := "1080" } = none :=
  rfl

/-- Claim C9, amended: an empty (trimmed) label leaves width and height
empty; a label holding an `x` is split on it and the first two parts become
width and height verbatim; but a non-empty label without any `x` panics on
the `arr[1]` index instead of continuing. -/
theorem C9_photo_dims_amended :
    Douban.parsePhotoSize "" = some ("", "", "")
    ∧ Douban.parsePhotoSize "1920x1080" = some ("1920x1080", "1920", "1080")
    ∧ Douban.parsePhotoSize "1920x1080x3" = some ("1920x1080x3", "1920", "1080")
    ∧ (∀ s : String, (Douban.rustTrim s).isEmpty = false →
        (Douban.rustSplit (Douban.rustTrim s) 'x').get? 1 = none →
        Douban.parsePhotoSize s = none)
    ∧ (∀ (node : Douban.PhotoNode) (id size width height : String),
        node.dataId = some id →
        Douban.parsePhotoSize node.propText = some (size, width, height) →
        Douban.parsePhoto node =
          some { id,
                 small := "https://img2.doubanio.com/view/photo/s/public/p"
                   ++ id ++ ".jpg",
                 medium := "https://img2.doubanio.com/view/photo/m/public/p"
                   ++ id ++ ".jpg",
                 large := "https://img2.doubanio.com/view/photo/l/public/p"
                   ++ id ++ ".jpg",
                 size, width, height }) := by
  refine ⟨rfl, rfl, rfl, ?_, ?_⟩
  · intro s h1 h2
    simp only [List.get?_eq_getElem?] at h2
    simp [Douban.parsePhotoSize, h1, h2]
  · intro node id size width height h1 h2
    simp [Douban.parsePhoto, h1, h2]

/-- Witness for C9: the non-empty label "abc" (no `x`) panics. -/
theorem C9_witness : Douban.parsePhotoSize "abc" = none :=
  C9_photo_dims_amended.2.2.2.1 "abc" rfl rfl

/-- Claim C10 (confirmed): a successful book-detail fetch inserts the
assembled record under both its subject id and its ISBN-13, so within the
TTL a later `get_book_info(id)` and a later `get_book_info_by_isbn(isbn)`
both return the cached record without running their upstream fetch (flag
`false`, fetch argument unused). -/
theorem C10_book_cache_dual_key :
    ∀ (cache : TtlCache DoubanBookApi.DoubanBook) (now : Nat)
      (fetch f₁ f₂ : FetchResult DoubanBookApi.BookDetailNode)
      (book : DoubanBookApi.DoubanBook) (cache₂ : TtlCache DoubanBookApi.DoubanBook)
      (t2 : Nat),
      DoubanBookApi.get_book_internal cache now fetch =
        some (Except.ok (book, cache₂, true)) →
      t2 < now + TTL_SECS →
      DoubanBookApi.get_book_info cache₂ t2 f₁ book.id =
          some (Except.ok (book, cache₂, false))
        ∧ DoubanBookApi.get_book_info_by_isbn cache₂ t2 f₂ book.isbn13 =
          some (Except.ok (book, cache₂, false)) := by
  intro cache now fetch f₁ f₂ book cache₂ t2 h ht
  rcases fetch with _ | _ | node
  · exact absurd h (by simp [DoubanBookApi.get_book_internal])
  · exact absurd h (by simp [DoubanBookApi.get_book_internal])
  · simp only [DoubanBookApi.get_book_internal] at h
    rcases hp : DoubanBookApi.parseBookDetail node with _ | b
    · rw [hp] at h
      simp at h
    · rw [hp] at h
      simp at h
      obtain ⟨hb, hc2⟩ := h
      subst hb
      subst hc2
      constructor
      · unfold DoubanBookApi.get_book_info
        rw [cacheGet_insert_insert_fst, if_pos ht]
      · unfold DoubanBookApi.get_book_info_by_isbn
        rw [cacheGet_insert_self, if_pos ht]

/-- Witness for C10: a concrete book-detail fetch populates the cache so
both lookups hit. -/
theorem C10_witness :
    DoubanBookApi.get_book_info exBookCache2 0 FetchResult.netErr exBook.id =
        some (Except.ok (exBook, exBookCache2, false))
    ∧ DoubanBookApi.get_book_info_by_isbn exBookCache2 0 FetchResult.netErr
        exBook.isbn13 = some (Except.ok (exBook, exBookCache2, false)) :=
  C10_book_cache_dual_key [] 0 (FetchResult.ok exBookNode) FetchResult.netErr
    FetchResult.netErr exBook exBookCache2 0 (by rfl) (by decide)
